import Mathlib

/-!
Verification of the edge-to-cloud synchronization agent (the SyncWorker
background service of the local agent).

The development shallowly embeds the worker: the per-stream SQL extraction
queries of FetchBatchData, the payload assembly with its dependent-stream
guards, the upload short-circuit of UploadData, the watermark fallback of
GetSyncStatus, the FARM_ID resolution performed by ExecuteAsync at startup,
and the scheduling loop of ExecuteAsync.

Modelling conventions: identifier columns (OID, ReferenceID, Animal) are
Nat; DateTime values are abstract Nat day numbers ordered like the
corresponding dates, so the literal date bounds of the queries become Nat
parameters (oneYearAgo, fallbackDate).  Each row structure carries exactly
the columns that the extraction queries inspect; the remaining columns of
the wide Delpro records are payload-only and play no role in any property
proved here.  A SQL table is a list of rows; a SELECT with ORDER BY OID and
TOP n is filter, then a stable insertion sort on the key, then take n.
Exceptions are modelled by explicit outcome data: per-stream fault data
for the try/catch blocks of FetchBatchData, recording after how many rows
the reader loop failed, because the rows already added stay in the list;
an Option result for the HTTP call of GetSyncStatus; and an outcome value
for the single POST of UploadData.  Mock mode (IsMockMode) is outside the
model.
-/

namespace PecusAgent

/-- Row of the local BasicAnimal table; only OID and ExitDate are read by
the WHERE clause of the animals query. -/
structure DelproBasicAnimal where
  OID : Nat
  ExitDate : Option Nat
  deriving DecidableEq, Repr

/-- Row of the local HistoryAnimal table; the query filters on ReferenceID. -/
structure DelproHistoryAnimal where
  OID : Nat
  ReferenceID : Nat
  deriving DecidableEq, Repr

/-- Row of the AnimalLactationSummary table; the query joins on Animal and
filters on OID. -/
structure DelproAnimalsLactationsSummary where
  OID : Nat
  Animal : Nat
  deriving DecidableEq, Repr

/-- Row of the SessionMilkYield table; the queries filter on OID and
BeginTime. -/
structure DelproSessionsMilkYield where
  OID : Nat
  BeginTime : Nat
  deriving DecidableEq, Repr

/-- Row of the VoluntarySessionMilkYield table; the query filters on OID. -/
structure DelproVoluntarySessionsMilkYield where
  OID : Nat
  deriving DecidableEq, Repr

/-- Row of the HistoryMilkDiversionInfo table; the query filters on OID. -/
structure DelproHistoryMilkDiversionInfo where
  OID : Nat
  deriving DecidableEq, Repr

/-- The local SQL Server database as seen by FetchBatchData. -/
structure LocalStore where
  basicAnimal : List DelproBasicAnimal
  historyAnimal : List DelproHistoryAnimal
  animalLactationSummary : List DelproAnimalsLactationsSummary
  sessionMilkYield : List DelproSessionsMilkYield
  voluntarySessionMilkYield : List DelproVoluntarySessionsMilkYield
  historyMilkDiversionInfo : List DelproHistoryMilkDiversionInfo
  deriving DecidableEq, Repr

/-- Which of the try/catch blocks of FetchBatchData observe an exception in
a given cycle.  connFail models conn.Open throwing (caught by the outer
catch before any list is filled).  Each stream field models the fate of
that stream's try block: none means the block completes; some k means its
exception fires once k rows have been added by the reader loop.  The lists
are declared before the try blocks and the catch only logs, so the k rows
already added stay in the list — a mid-read failure leaves a partial batch,
not an empty one (k = 0 covers a command that fails before any row). -/
structure ReadFaults where
  connFail : Bool
  animalsFault : Option Nat
  historyFault : Option Nat
  lactationsFault : Option Nat
  sessionsFault : Option Nat
  voluntaryFault : Option Nat
  diversionsFault : Option Nat
  deriving DecidableEq, Repr

/-- A cycle with no local-store errors. -/
def noFaults : ReadFaults :=
  { connFail := false, animalsFault := none, historyFault := none,
    lactationsFault := none, sessionsFault := none, voluntaryFault := none,
    diversionsFault := none }

/-- The body POSTed to /api/v1/ingest; field names follow the source
record. -/
structure IngestPayload where
  farm_id : String
  basic_animals : List DelproBasicAnimal
  lactations_summary : List DelproAnimalsLactationsSummary
  sessions_milk_yield : List DelproSessionsMilkYield
  voluntary_sessions_milk_yield : List DelproVoluntarySessionsMilkYield
  history_milk_diversion_info : List DelproHistoryMilkDiversionInfo
  history_animals : List DelproHistoryAnimal
  deriving DecidableEq, Repr

/-- The watermark record returned by GET /api/sync/status. -/
structure SyncStatusResponse where
  last_oid : Nat
  last_animal_oid : Nat
  last_lactation_oid : Nat
  last_history_milk_diversion_oid : Nat
  deriving DecidableEq, Repr

/-- The persisted agent_config.json record. -/
structure AgentConfig where
  FarmId : Option String
  DatabaseName : Option String
  PollingIntervalSeconds : Nat
  deriving DecidableEq, Repr

/-- Insert an element into a list that is sorted on the given Nat key,
keeping it sorted. -/
def insertByKey {α : Type} (key : α → Nat) (x : α) : List α → List α
  | [] => [x]
  | y :: ys => if key x ≤ key y then x :: y :: ys else y :: insertByKey key x ys

/-- Insertion sort on a Nat key; the semantics of ORDER BY key ASC. -/
def sortByKey {α : Type} (key : α → Nat) : List α → List α
  | [] => []
  | x :: xs => insertByKey key x (sortByKey key xs)

/-- Semantics of SELECT TOP limit * FROM table WHERE pred ORDER BY key ASC. -/
def queryTop {α : Type} (pred : α → Bool) (key : α → Nat) (limit : Nat)
    (table : List α) : List α :=
  (sortByKey key (table.filter pred)).take limit

/-- The TOP 2000 bound used by every watermark query of FetchBatchData. -/
def batchLimit : Nat := 2000

/-- The condition (ExitDate IS NULL OR ExitDate > oneYearAgo). -/
def exitDateFilter (oneYearAgo : Nat) : Option Nat → Bool
  | none => true
  | some d => decide (oneYearAgo < d)

/-- WHERE clause of the BasicAnimal query: the exit-date condition together
with OID > @LastAnimalOID. -/
def animalPred (oneYearAgo lastAnimalOid : Nat) (r : DelproBasicAnimal) : Bool :=
  exitDateFilter oneYearAgo r.ExitDate && decide (lastAnimalOid < r.OID)

/-- The BasicAnimal query: SELECT TOP 2000 WHERE exit-date filter AND
OID > @LastAnimalOID ORDER BY OID ASC. -/
def fetchAnimals (db : List DelproBasicAnimal) (oneYearAgo lastAnimalOid : Nat) :
    List DelproBasicAnimal :=
  queryTop (animalPred oneYearAgo lastAnimalOid) (fun r => r.OID) batchLimit db

/-- The HistoryAnimal query, run only when the animals batch is non-empty:
SELECT * WHERE ReferenceID IN (OIDs of the batch).  No ORDER BY and no TOP
in the source; table order is kept. -/
def fetchHistoryAnimals (db : List DelproHistoryAnimal)
    (animals : List DelproBasicAnimal) : List DelproHistoryAnimal :=
  if animals.isEmpty then []
  else db.filter (fun h => animals.any (fun a => a.OID == h.ReferenceID))

/-- WHERE clause of the AnimalLactationSummary query: the join on
BasicAnimal restricted by the exit-date filter, plus L.OID >
@LastLactationOID.  OID is the primary key of BasicAnimal, so the JOIN
matches at most one animal row and amounts to this membership test. -/
def lactationPred (animalsTable : List DelproBasicAnimal)
    (oneYearAgo lastLactationOid : Nat) (l : DelproAnimalsLactationsSummary) : Bool :=
  animalsTable.any (fun a => a.OID == l.Animal && exitDateFilter oneYearAgo a.ExitDate)
    && decide (lastLactationOid < l.OID)

/-- The AnimalLactationSummary query: SELECT TOP 2000 with the join filter,
ORDER BY L.OID ASC. -/
def fetchLactations (db : List DelproAnimalsLactationsSummary)
    (animalsTable : List DelproBasicAnimal) (oneYearAgo lastLactationOid : Nat) :
    List DelproAnimalsLactationsSummary :=
  queryTop (lactationPred animalsTable oneYearAgo lastLactationOid)
    (fun l => l.OID) batchLimit db

/-- The first-run probe SELECT TOP 1 1 WHERE BeginTime > oneYearAgo. -/
def hasRecentSessionData (db : List DelproSessionsMilkYield) (oneYearAgo : Nat) : Bool :=
  db.any (fun s => decide (oneYearAgo < s.BeginTime))

/-- The SessionMilkYield query.  With lastSessionOid = 0 the source picks a
start date (oneYearAgo when recent data exists, otherwise the fixed
fallback date) and filters on BeginTime; otherwise it filters on
OID > @LastSessionOID.  Both branches are TOP 2000 ORDER BY OID ASC. -/
def fetchSessions (db : List DelproSessionsMilkYield)
    (oneYearAgo fallbackDate lastSessionOid : Nat) : List DelproSessionsMilkYield :=
  if lastSessionOid = 0 then
    queryTop
      (fun s =>
        decide ((if hasRecentSessionData db oneYearAgo then oneYearAgo else fallbackDate)
          < s.BeginTime))
      (fun s => s.OID) batchLimit db
  else
    queryTop (fun s => decide (lastSessionOid < s.OID)) (fun s => s.OID) batchLimit db

/-- sessions.Min(s => s.OID) over a non-empty batch s :: rest. -/
def oidsMin (s : DelproSessionsMilkYield) (rest : List DelproSessionsMilkYield) : Nat :=
  (rest.map (fun x => x.OID)).foldl Nat.min s.OID

/-- sessions.Max(s => s.OID) over a non-empty batch s :: rest. -/
def oidsMax (s : DelproSessionsMilkYield) (rest : List DelproSessionsMilkYield) : Nat :=
  (rest.map (fun x => x.OID)).foldl Nat.max s.OID

/-- The VoluntarySessionMilkYield query, run only when the sessions batch
is non-empty: SELECT * WHERE OID >= @MinOID AND OID <= @MaxOID ORDER BY OID
ASC, where MinOID and MaxOID are the bounds of the sessions batch. -/
def fetchVoluntary (db : List DelproVoluntarySessionsMilkYield) :
    List DelproSessionsMilkYield → List DelproVoluntarySessionsMilkYield
  | [] => []
  | s :: rest =>
      sortByKey (fun v => v.OID)
        (db.filter (fun v =>
          decide (oidsMin s rest ≤ v.OID) && decide (v.OID ≤ oidsMax s rest)))

/-- The HistoryMilkDiversionInfo query: SELECT TOP 2000 WHERE OID >
@LastDiversionOID ORDER BY OID ASC. -/
def fetchDiversions (db : List DelproHistoryMilkDiversionInfo)
    (lastHistoryMilkDiversionOid : Nat) : List DelproHistoryMilkDiversionInfo :=
  queryTop (fun d => decide (lastHistoryMilkDiversionOid < d.OID))
    (fun d => d.OID) batchLimit db

/-- Outcome of one reader loop (while r.Read() list.Add(Map r)): the full
query result when the block completes, and the prefix of the first k rows
when the block's exception fires after k rows were added.  The catch only
logs, so that prefix is what remains in the list. -/
def readRows {α : Type} (result : List α) : Option Nat → List α
  | none => result
  | some k => result.take k

/-- The payload produced when conn.Open throws: every list is still at its
initial empty value. -/
def emptyPayload (farmId : String) : IngestPayload :=
  { farm_id := farmId, basic_animals := [], lactations_summary := [],
    sessions_milk_yield := [], voluntary_sessions_milk_yield := [],
    history_milk_diversion_info := [], history_animals := [] }

/-- FetchBatchData over the real SQL branch.  Each stream list is declared
before its try block and filled by a reader loop, so a mid-read exception
leaves the prefix of rows already added (readRows).  The HistoryAnimal
query sits inside the animals try, after the animals loop and guarded by
animals.Any(): any animals-read exception skips it entirely, while a
completed animals read feeds it the full batch.  The voluntary block is a
separate top-level block guarded by sessions.Any() and therefore runs on
the sessions list as it stands — the partial batch when the sessions read
failed mid-way.  An empty parent batch short-circuits fetchHistoryAnimals
and fetchVoluntary to []. -/
def FetchBatchData (farmId : String) (store : LocalStore) (faults : ReadFaults)
    (lastSessionOid lastAnimalOid lastLactationOid lastHistoryMilkDiversionOid : Nat)
    (oneYearAgo fallbackDate : Nat) : IngestPayload :=
  if faults.connFail then emptyPayload farmId
  else
    let animals :=
      readRows (fetchAnimals store.basicAnimal oneYearAgo lastAnimalOid)
        faults.animalsFault
    let historyAnimals :=
      match faults.animalsFault with
      | some _ => []
      | none =>
          readRows (fetchHistoryAnimals store.historyAnimal animals)
            faults.historyFault
    let lactations :=
      readRows
        (fetchLactations store.animalLactationSummary store.basicAnimal
          oneYearAgo lastLactationOid)
        faults.lactationsFault
    let sessions :=
      readRows (fetchSessions store.sessionMilkYield oneYearAgo fallbackDate lastSessionOid)
        faults.sessionsFault
    let voluntary :=
      readRows (fetchVoluntary store.voluntarySessionMilkYield sessions)
        faults.voluntaryFault
    let diversions :=
      readRows (fetchDiversions store.historyMilkDiversionInfo lastHistoryMilkDiversionOid)
        faults.diversionsFault
    { farm_id := farmId
      basic_animals := animals
      lactations_summary := lactations
      sessions_milk_yield := sessions
      voluntary_sessions_milk_yield := voluntary
      history_milk_diversion_info := diversions
      history_animals := historyAnimals }

/-- The empty-payload check at the top of UploadData; the source inspects
exactly these four lists, in this order. -/
def noNewData (p : IngestPayload) : Bool :=
  p.basic_animals.isEmpty && p.sessions_milk_yield.isEmpty &&
    p.lactations_summary.isEmpty && p.history_milk_diversion_info.isEmpty

/-- Result of the single PostAsJsonAsync inside UploadData. -/
inductive UploadOutcome where
  | success
  | httpError
  | exn
  deriving DecidableEq, Repr

/-- Observable network behaviour of one UploadData call: the POST requests
issued, each carrying a whole payload, and the backoff sleeps performed
between attempts. -/
structure UploadTrace where
  requests : List IngestPayload
  backoffWaits : List Nat
  deriving DecidableEq, Repr

/-- UploadData: returns with no request when noNewData holds, otherwise
issues exactly one POST of the whole payload.  Failure (non-2xx or an
exception) is logged and swallowed; the source contains no retry loop and
no backoff sleep, so the trace never depends on the attempt outcome. -/
def UploadData (p : IngestPayload) (_firstAttempt : UploadOutcome) : UploadTrace :=
  if noNewData p then { requests := [], backoffWaits := [] }
  else { requests := [p], backoffWaits := [] }

/-- GetSyncStatus: the HTTP result when the call returns, and the zero
watermark ctor SyncStatusResponse(0, 0, 0, 0) when it throws. -/
def GetSyncStatus : Option SyncStatusResponse → SyncStatusResponse
  | some s => s
  | none =>
      { last_oid := 0, last_animal_oid := 0, last_lactation_oid := 0,
        last_history_milk_diversion_oid := 0 }

/-- External circumstances of one cycle of the ExecuteAsync loop. -/
structure CycleEnv where
  store : LocalStore
  faults : ReadFaults
  syncStatusResult : Option SyncStatusResponse
  uploadOutcome : UploadOutcome
  oneYearAgo : Nat
  fallbackDate : Nat
  deriving DecidableEq, Repr

/-- Everything one cycle produces: the extracted payload, the upload trace,
and the config file as it stands after the cycle. -/
structure CycleResult where
  payload : IngestPayload
  upload : UploadTrace
  configAfter : Option AgentConfig
  deriving DecidableEq, Repr

/-- One iteration of the ExecuteAsync loop body: GetSyncStatus, then
FetchBatchData on the four returned watermarks, then UploadData.  The cycle
never writes the config file (LoadConfig only reads it), which the result
records explicitly. -/
def runCycle (farmId : String) (configFile : Option AgentConfig) (env : CycleEnv) :
    CycleResult :=
  { payload :=
      FetchBatchData farmId env.store env.faults
        (GetSyncStatus env.syncStatusResult).last_oid
        (GetSyncStatus env.syncStatusResult).last_animal_oid
        (GetSyncStatus env.syncStatusResult).last_lactation_oid
        (GetSyncStatus env.syncStatusResult).last_history_milk_diversion_oid
        env.oneYearAgo env.fallbackDate
    upload :=
      UploadData
        (FetchBatchData farmId env.store env.faults
          (GetSyncStatus env.syncStatusResult).last_oid
          (GetSyncStatus env.syncStatusResult).last_animal_oid
          (GetSyncStatus env.syncStatusResult).last_lactation_oid
          (GetSyncStatus env.syncStatusResult).last_history_milk_diversion_oid
          env.oneYearAgo env.fallbackDate)
        env.uploadOutcome
    configAfter := configFile }

/-- The class constant PollingIntervalSeconds = 1800 (30 minutes). -/
def PollingIntervalSeconds : Nat := 1800

/-- config?.PollingIntervalSeconds ?? PollingIntervalSeconds. -/
def pollingIntervalOf : Option AgentConfig → Nat
  | some c => c.PollingIntervalSeconds
  | none => PollingIntervalSeconds

/-- One tick of the scheduling loop: whether some exception escaped the
cycle body into the top-level catch, and the config file read at the start
of the tick. -/
structure TickEnv where
  cycleThrows : Bool
  configFile : Option AgentConfig
  deriving DecidableEq, Repr

/-- The waits performed by the while loop of ExecuteAsync, one per tick
until cancellation ends the list: a clean cycle waits the configured
interval, a cycle whose exception reached the top-level catch is logged and
waits 60 seconds. -/
def ExecuteLoopWaits : List TickEnv → List Nat
  | [] => []
  | t :: rest =>
      (if t.cycleThrows then 60 else pollingIntervalOf t.configFile) ::
        ExecuteLoopWaits rest

/-- The AgentConfig written by SaveFarmIdToConfig: only FarmId is set, the
other members keep their C# initializers. -/
def SaveFarmIdToConfig (farmId : String) : AgentConfig :=
  { FarmId := some farmId, DatabaseName := some "DelPro",
    PollingIntervalSeconds := 1800 }

/-- Inputs of the FARM_ID resolution at the top of ExecuteAsync:
the FARM_ID environment value (none models null), the loadable config
file, whether Console input is interactive (the negation of
Console.IsInputRedirected), the Console.ReadLine result, and the farm id
returned by RegisterFarm (none models a failed registration). -/
structure StartupEnv where
  envFarmId : Option String
  configFile : Option AgentConfig
  interactive : Bool
  enteredName : Option String
  registrationResult : Option String
  deriving DecidableEq, Repr

/-- How startup ends: entering the scheduling loop with a farm id, or
returning before the loop.  Both carry the config file as it stands
afterwards. -/
inductive StartupResult where
  | enterLoop (farmId : String) (configAfter : Option AgentConfig)
  | terminate (configAfter : Option AgentConfig)
  deriving DecidableEq, Repr

/-- True exactly on the terminate outcome. -/
def isTerminate : StartupResult → Bool
  | StartupResult.terminate _ => true
  | StartupResult.enterLoop _ _ => false

/-- The first two resolution steps: the environment value unless it is
null, empty or "UNKNOWN_FARM", in which case LoadFarmIdFromConfig, i.e. the
FarmId member of the config file. -/
def resolvedFromEnvOrConfig (e : StartupEnv) : Option String :=
  if e.envFarmId = none ∨ e.envFarmId = some "" ∨ e.envFarmId = some "UNKNOWN_FARM" then
    e.configFile.bind (fun c => c.FarmId)
  else e.envFarmId

/-- The FARM_ID resolution of ExecuteAsync.  When env and config yield
nothing: in interactive mode a farm name is read and RegisterFarm is
called, a non-empty returned id is persisted via SaveFarmIdToConfig and
used; otherwise (and whenever the id is still null or empty afterwards) the
method logs and returns before the loop. -/
def resolveFarmId (e : StartupEnv) : StartupResult :=
  if resolvedFromEnvOrConfig e = none ∨ resolvedFromEnvOrConfig e = some "" then
    if e.interactive = true then
      match e.enteredName with
      | none => StartupResult.terminate e.configFile
      | some name =>
        if name.trim = "" then StartupResult.terminate e.configFile
        else
          match e.registrationResult with
          | none => StartupResult.terminate e.configFile
          | some fid =>
            if fid = "" then StartupResult.terminate e.configFile
            else StartupResult.enterLoop fid (some (SaveFarmIdToConfig fid))
    else StartupResult.terminate e.configFile
  else
    StartupResult.enterLoop ((resolvedFromEnvOrConfig e).getD "") e.configFile

/-! Concrete data used by witnesses and counterexamples. -/

/-- A single animal row that every filter keeps. -/
def smallAnimal : DelproBasicAnimal := { OID := 1, ExitDate := none }

/-- A payload whose animals list is non-empty. -/
def smallPayload : IngestPayload :=
  { farm_id := "farm-demo", basic_animals := [smallAnimal], lactations_summary := [],
    sessions_milk_yield := [], voluntary_sessions_milk_yield := [],
    history_milk_diversion_info := [], history_animals := [] }

/-- An animal row whose ExitDate lies before the one-year cutoff. -/
def exitedAnimal : DelproBasicAnimal := { OID := 5, ExitDate := some 0 }

/-- A session row with identifier above watermark 1. -/
def demoSession : DelproSessionsMilkYield := { OID := 2, BeginTime := 0 }

/-- A store whose session OIDs 10 and 30 leave a gap at 20 which the
voluntary table fills. -/
def gapStore : LocalStore :=
  { basicAnimal := [], historyAnimal := [], animalLactationSummary := [],
    sessionMilkYield := [{ OID := 10, BeginTime := 0 }, { OID := 30, BeginTime := 0 }],
    voluntarySessionMilkYield := [{ OID := 20 }],
    historyMilkDiversionInfo := [] }

/-- A store holding one fresh animal row. -/
def demoStore : LocalStore :=
  { basicAnimal := [smallAnimal], historyAnimal := [], animalLactationSummary := [],
    sessionMilkYield := [], voluntarySessionMilkYield := [],
    historyMilkDiversionInfo := [] }

/-- C1 as stated by the spec: a failing upload is retried with exponential
backoff whose first wait is 2 seconds, with at least a second and at most a
fifth attempt before the cycle gives up. -/
def uploadRetryBackoffClaim : Prop :=
  ∀ (p : IngestPayload) (o : UploadOutcome), noNewData p = false →
    o ≠ UploadOutcome.success →
      2 ≤ (UploadData p o).requests.length ∧
        (UploadData p o).requests.length ≤ 5 ∧
        (UploadData p o).backoffWaits.head? = some 2

/-- C2 as stated: with watermark w > 0, extraction of the animals stream
returns min(N, batchLimit) rows where N counts the table rows with
identifier greater than w. -/
def batchBoundByOidClaim : Prop :=
  ∀ (db : List DelproBasicAnimal) (oneYearAgo w : Nat), 0 < w →
    (fetchAnimals db oneYearAgo w).length =
      min ((db.filter (fun r => decide (w < r.OID))).length) batchLimit

/-- C8 as stated by the spec: a failure reading a single stream — here the
sessions stream, failing after k rows — yields an empty batch for that
stream. -/
def streamFailureEmptyClaim : Prop :=
  ∀ (farmId : String) (store : LocalStore) (wS wA wL wD y fb k : Nat),
    (FetchBatchData farmId store { noFaults with sessionsFault := some k }
        wS wA wL wD y fb).sessions_milk_yield = []

/-- C3 as stated: every record of a dependent stream is keyed by membership
in the set of identifiers of its parent batch. -/
def dependentByMembershipClaim : Prop :=
  ∀ (farmId : String) (store : LocalStore) (wS wA wL wD y fb : Nat),
    (∀ h ∈ (FetchBatchData farmId store noFaults wS wA wL wD y fb).history_animals,
        h.ReferenceID ∈
          (FetchBatchData farmId store noFaults wS wA wL wD y fb).basic_animals.map
            (fun a => a.OID)) ∧
    (∀ v ∈ (FetchBatchData farmId store noFaults wS wA wL wD y fb).voluntary_sessions_milk_yield,
        v.OID ∈
          (FetchBatchData farmId store noFaults wS wA wL wD y fb).sessions_milk_yield.map
            (fun s => s.OID))

/-! Helper lemmas about the query semantics. -/

theorem length_insertByKey {α : Type} (key : α → Nat) (x : α) :
    ∀ l : List α, (insertByKey key x l).length = l.length + 1
  | [] => rfl
  | y :: ys => by
      unfold insertByKey
      by_cases h : key x ≤ key y
      · simp [h]
      · simp [h, length_insertByKey key x ys]

theorem mem_insertByKey {α : Type} (key : α → Nat) (x z : α) :
    ∀ l : List α, z ∈ insertByKey key x l ↔ z = x ∨ z ∈ l
  | [] => by simp [insertByKey]
  | y :: ys => by
      unfold insertByKey
      by_cases h : key x ≤ key y
      · rw [if_pos h]
        simp [List.mem_cons]
      · rw [if_neg h]
        simp only [List.mem_cons, mem_insertByKey key x z ys]
        tauto

theorem pairwise_insertByKey {α : Type} (key : α → Nat) (x : α) :
    ∀ l : List α, l.Pairwise (fun a b => key a ≤ key b) →
      (insertByKey key x l).Pairwise (fun a b => key a ≤ key b)
  | [], _ => by simp [insertByKey]
  | y :: ys, h => by
      unfold insertByKey
      rcases List.pairwise_cons.mp h with ⟨hy, hys⟩
      by_cases hxy : key x ≤ key y
      · rw [if_pos hxy]
        refine List.pairwise_cons.mpr ⟨?_, h⟩
        intro z hz
        rcases List.mem_cons.mp hz with rfl | hz2
        · exact hxy
        · exact Nat.le_trans hxy (hy z hz2)
      · rw [if_neg hxy]
        refine List.pairwise_cons.mpr ⟨?_, pairwise_insertByKey key x ys hys⟩
        intro z hz
        rcases (mem_insertByKey key x z ys).mp hz with rfl | hz2
        · omega
        · exact hy z hz2

theorem length_sortByKey {α : Type} (key : α → Nat) :
    ∀ l : List α, (sortByKey key l).length = l.length
  | [] => rfl
  | x :: xs => by
      unfold sortByKey
      rw [length_insertByKey, length_sortByKey key xs]
      rfl

theorem mem_sortByKey {α : Type} (key : α → Nat) (z : α) :
    ∀ l : List α, z ∈ sortByKey key l ↔ z ∈ l
  | [] => Iff.rfl
  | x :: xs => by
      unfold sortByKey
      rw [mem_insertByKey]
      simp [List.mem_cons, mem_sortByKey key z xs]

theorem pairwise_sortByKey {α : Type} (key : α → Nat) :
    ∀ l : List α, (sortByKey key l).Pairwise (fun a b => key a ≤ key b)
  | [] => List.Pairwise.nil
  | x :: xs => pairwise_insertByKey key x (sortByKey key xs) (pairwise_sortByKey key xs)

theorem length_queryTop {α : Type} (pred : α → Bool) (key : α → Nat) (limit : Nat)
    (table : List α) :
    (queryTop pred key limit table).length = min ((table.filter pred).length) limit := by
  unfold queryTop
  rw [List.length_take, length_sortByKey, Nat.min_comm]

theorem pairwise_queryTop {α : Type} (pred : α → Bool) (key : α → Nat) (limit : Nat)
    (table : List α) :
    (queryTop pred key limit table).Pairwise (fun a b => key a ≤ key b) :=
  (pairwise_sortByKey key (table.filter pred)).sublist (List.take_sublist limit _)

theorem mem_queryTop {α : Type} {pred : α → Bool} {key : α → Nat} {limit : Nat}
    {table : List α} {x : α} (h : x ∈ queryTop pred key limit table) :
    x ∈ table ∧ pred x = true := by
  unfold queryTop at h
  have h1 : x ∈ sortByKey key (table.filter pred) :=
    (List.take_sublist limit _).subset h
  exact List.mem_filter.mp ((mem_sortByKey key x _).mp h1)

theorem fetchHistoryAnimals_nil (db : List DelproHistoryAnimal) :
    fetchHistoryAnimals db [] = [] := rfl

theorem fetchVoluntary_nil (db : List DelproVoluntarySessionsMilkYield) :
    fetchVoluntary db [] = [] := rfl

theorem mem_fetchHistoryAnimals (db : List DelproHistoryAnimal)
    (animals : List DelproBasicAnimal) (hrec : DelproHistoryAnimal) :
    hrec ∈ fetchHistoryAnimals db animals ↔
      hrec ∈ db ∧ hrec.ReferenceID ∈ animals.map (fun a => a.OID) := by
  cases animals with
  | nil => simp [fetchHistoryAnimals]
  | cons a as =>
      simp only [fetchHistoryAnimals, List.isEmpty_cons, if_neg Bool.false_ne_true,
        List.mem_filter, List.any_eq_true, List.mem_map, beq_iff_eq]

theorem mem_fetchVoluntary (db : List DelproVoluntarySessionsMilkYield)
    (s : DelproSessionsMilkYield) (rest : List DelproSessionsMilkYield)
    (v : DelproVoluntarySessionsMilkYield) :
    v ∈ fetchVoluntary db (s :: rest) ↔
      v ∈ db ∧ oidsMin s rest ≤ v.OID ∧ v.OID ≤ oidsMax s rest := by
  unfold fetchVoluntary
  rw [mem_sortByKey]
  simp [List.mem_filter, and_assoc]

/-- Expanded form of FetchBatchData, zeta-reducing its local lists. -/
theorem FetchBatchData_eq (farmId : String) (store : LocalStore) (faults : ReadFaults)
    (wS wA wL wD y fb : Nat) :
    FetchBatchData farmId store faults wS wA wL wD y fb =
      if faults.connFail then emptyPayload farmId
      else
        { farm_id := farmId
          basic_animals :=
            readRows (fetchAnimals store.basicAnimal y wA) faults.animalsFault
          lactations_summary :=
            readRows (fetchLactations store.animalLactationSummary store.basicAnimal y wL)
              faults.lactationsFault
          sessions_milk_yield :=
            readRows (fetchSessions store.sessionMilkYield y fb wS) faults.sessionsFault
          voluntary_sessions_milk_yield :=
            readRows
              (fetchVoluntary store.voluntarySessionMilkYield
                (readRows (fetchSessions store.sessionMilkYield y fb wS)
                  faults.sessionsFault))
              faults.voluntaryFault
          history_milk_diversion_info :=
            readRows (fetchDiversions store.historyMilkDiversionInfo wD)
              faults.diversionsFault
          history_animals :=
            match faults.animalsFault with
            | some _ => []
            | none =>
                readRows
                  (fetchHistoryAnimals store.historyAnimal
                    (readRows (fetchAnimals store.basicAnimal y wA) faults.animalsFault))
                  faults.historyFault } := rfl

/-- FetchBatchData with no faults, as a plain record of the six queries. -/
theorem FetchBatchData_noFaults (farmId : String) (store : LocalStore)
    (wS wA wL wD y fb : Nat) :
    FetchBatchData farmId store noFaults wS wA wL wD y fb =
      { farm_id := farmId
        basic_animals := fetchAnimals store.basicAnimal y wA
        lactations_summary :=
          fetchLactations store.animalLactationSummary store.basicAnimal y wL
        sessions_milk_yield := fetchSessions store.sessionMilkYield y fb wS
        voluntary_sessions_milk_yield :=
          fetchVoluntary store.voluntarySessionMilkYield
            (fetchSessions store.sessionMilkYield y fb wS)
        history_milk_diversion_info := fetchDiversions store.historyMilkDiversionInfo wD
        history_animals :=
          fetchHistoryAnimals store.historyAnimal
            (fetchAnimals store.basicAnimal y wA) } := rfl

theorem readRows_nil {α : Type} (f : Option Nat) : readRows ([] : List α) f = [] := by
  cases f with
  | none => rfl
  | some k => exact List.take_nil

theorem proj_basic (farmId : String) (store : LocalStore) (faults : ReadFaults)
    (wS wA wL wD y fb : Nat) (hc : faults.connFail = false) :
    (FetchBatchData farmId store faults wS wA wL wD y fb).basic_animals =
      readRows (fetchAnimals store.basicAnimal y wA) faults.animalsFault := by
  rw [FetchBatchData_eq, if_neg (by simp [hc])]

theorem proj_history (farmId : String) (store : LocalStore) (faults : ReadFaults)
    (wS wA wL wD y fb : Nat) (hc : faults.connFail = false) :
    (FetchBatchData farmId store faults wS wA wL wD y fb).history_animals =
      match faults.animalsFault with
      | some _ => []
      | none =>
          readRows
            (fetchHistoryAnimals store.historyAnimal
              (readRows (fetchAnimals store.basicAnimal y wA) faults.animalsFault))
            faults.historyFault := by
  rw [FetchBatchData_eq, if_neg (by simp [hc])]

theorem proj_lactations (farmId : String) (store : LocalStore) (faults : ReadFaults)
    (wS wA wL wD y fb : Nat) (hc : faults.connFail = false) :
    (FetchBatchData farmId store faults wS wA wL wD y fb).lactations_summary =
      readRows (fetchLactations store.animalLactationSummary store.basicAnimal y wL)
        faults.lactationsFault := by
  rw [FetchBatchData_eq, if_neg (by simp [hc])]

theorem proj_sessions (farmId : String) (store : LocalStore) (faults : ReadFaults)
    (wS wA wL wD y fb : Nat) (hc : faults.connFail = false) :
    (FetchBatchData farmId store faults wS wA wL wD y fb).sessions_milk_yield =
      readRows (fetchSessions store.sessionMilkYield y fb wS) faults.sessionsFault := by
  rw [FetchBatchData_eq, if_neg (by simp [hc])]

theorem proj_voluntary (farmId : String) (store : LocalStore) (faults : ReadFaults)
    (wS wA wL wD y fb : Nat) (hc : faults.connFail = false) :
    (FetchBatchData farmId store faults wS wA wL wD y fb).voluntary_sessions_milk_yield =
      readRows
        (fetchVoluntary store.voluntarySessionMilkYield
          (readRows (fetchSessions store.sessionMilkYield y fb wS) faults.sessionsFault))
        faults.voluntaryFault := by
  rw [FetchBatchData_eq, if_neg (by simp [hc])]

theorem proj_diversions (farmId : String) (store : LocalStore) (faults : ReadFaults)
    (wS wA wL wD y fb : Nat) (hc : faults.connFail = false) :
    (FetchBatchData farmId store faults wS wA wL wD y fb).history_milk_diversion_info =
      readRows (fetchDiversions store.historyMilkDiversionInfo wD)
        faults.diversionsFault := by
  rw [FetchBatchData_eq, if_neg (by simp [hc])]

/-- A non-empty voluntary batch forces a non-empty sessions batch: the
voluntary query only runs under the sessions.Any() guard. -/
theorem voluntary_sub (farmId : String) (store : LocalStore) (faults : ReadFaults)
    (wS wA wL wD y fb : Nat)
    (h : (FetchBatchData farmId store faults wS wA wL wD y fb).voluntary_sessions_milk_yield ≠ []) :
    (FetchBatchData farmId store faults wS wA wL wD y fb).sessions_milk_yield ≠ [] := by
  by_cases hc : faults.connFail
  · rw [FetchBatchData_eq, if_pos hc] at h
    exact absurd rfl h
  · have hc2 : faults.connFail = false := by
      cases hx : faults.connFail with
      | true => exact absurd hx hc
      | false => rfl
    rw [proj_voluntary farmId store faults wS wA wL wD y fb hc2] at h
    rw [proj_sessions farmId store faults wS wA wL wD y fb hc2]
    intro hs
    rw [hs, fetchVoluntary_nil, readRows_nil] at h
    exact h rfl

/-- A non-empty history batch forces a non-empty animals batch: the history
query only runs under the animals.Any() guard. -/
theorem history_sub (farmId : String) (store : LocalStore) (faults : ReadFaults)
    (wS wA wL wD y fb : Nat)
    (h : (FetchBatchData farmId store faults wS wA wL wD y fb).history_animals ≠ []) :
    (FetchBatchData farmId store faults wS wA wL wD y fb).basic_animals ≠ [] := by
  by_cases hc : faults.connFail
  · rw [FetchBatchData_eq, if_pos hc] at h
    exact absurd rfl h
  · have hc2 : faults.connFail = false := by
      cases hx : faults.connFail with
      | true => exact absurd hx hc
      | false => rfl
    rw [proj_history farmId store faults wS wA wL wD y fb hc2] at h
    rw [proj_basic farmId store faults wS wA wL wD y fb hc2]
    intro hs
    cases hx : faults.animalsFault with
    | some k =>
        rw [hx] at h
        exact h rfl
    | none =>
        rw [hx] at h hs
        rw [hs, fetchHistoryAnimals_nil, readRows_nil] at h
        exact h rfl

theorem eq_nil_of_isEmpty {β : Type} {l : List β} (h : l.isEmpty = true) : l = [] := by
  cases l with
  | nil => rfl
  | cons a as => exact Bool.noConfusion h

theorem isEmpty_false_of_ne {β : Type} {l : List β} (h : l ≠ []) : l.isEmpty = false := by
  cases l with
  | nil => exact absurd rfl h
  | cons a as => rfl

/-! Claim theorems. -/

/-- C1 counterexample: on a payload with one animal and a failing first
attempt, UploadData issues a single request, so the claimed retry with
exponential backoff (a second attempt, first wait 2s, up to five attempts)
does not happen. -/
theorem C1_no_retry_counterexample : ¬ uploadRetryBackoffClaim := by
  intro h
  have h2 := (h smallPayload UploadOutcome.httpError (by decide) (by decide)).1
  exact absurd h2 (by decide)

/-- C1 (amended): for every cycle with new data, UploadData issues exactly
one POST of the whole payload and performs no backoff wait, regardless of
the attempt outcome; a failing upload is logged and the cycle gives up
after this single attempt, so in particular no 6th attempt ever occurs. -/
theorem C1_upload_single_attempt (p : IngestPayload) (o : UploadOutcome)
    (h : noNewData p = false) :
    (UploadData p o).requests = [p] ∧ (UploadData p o).backoffWaits = [] := by
  rw [UploadData, if_neg (by simp [h])]
  exact ⟨rfl, rfl⟩

/-- C1 witness: the amended theorem evaluated on a concrete non-empty
payload with a failing attempt. -/
theorem C1_upload_single_attempt_witness :
    noNewData smallPayload = false ∧
      (UploadData smallPayload UploadOutcome.httpError).requests = [smallPayload] ∧
      (UploadData smallPayload UploadOutcome.httpError).backoffWaits = [] :=
  ⟨by decide, C1_upload_single_attempt smallPayload UploadOutcome.httpError (by decide)⟩

/-- C2 counterexample: with watermark 1 the animals table holding the
single row (OID 5, ExitDate 0) has one row with identifier above the
watermark, but the extraction returns no row, because the query also
filters on (ExitDate IS NULL OR ExitDate > oneYearAgo). -/
theorem C2_exit_filter_counterexample : ¬ batchBoundByOidClaim := by
  intro h
  have h2 := h [exitedAnimal] 10 1 (by decide)
  exact absurd h2 (by decide)

/-- C2 (amended): for a stream with watermark w > 0, a single extraction
returns exactly min(N, batchLimit) rows where N counts the rows satisfying
the full selection predicate of the stream — for sessions exactly
identifier > w, for basic animals identifier > w together with the
recent-exit filter — and the returned rows all have identifier strictly
greater than w and are sorted ascending by identifier. -/
theorem C2_batch_bound (dbA : List DelproBasicAnimal)
    (dbS : List DelproSessionsMilkYield) (w oneYearAgo fallbackDate : Nat)
    (hw : 0 < w) :
    ((fetchSessions dbS oneYearAgo fallbackDate w).length =
        min ((dbS.filter (fun s => decide (w < s.OID))).length) batchLimit ∧
      (fetchSessions dbS oneYearAgo fallbackDate w).Pairwise (fun a b => a.OID ≤ b.OID) ∧
      ∀ s ∈ fetchSessions dbS oneYearAgo fallbackDate w, w < s.OID) ∧
    ((fetchAnimals dbA oneYearAgo w).length =
        min ((dbA.filter (animalPred oneYearAgo w)).length) batchLimit ∧
      (fetchAnimals dbA oneYearAgo w).Pairwise (fun a b => a.OID ≤ b.OID) ∧
      ∀ r ∈ fetchAnimals dbA oneYearAgo w, w < r.OID) := by
  have hw0 : ¬ w = 0 := by omega
  constructor
  · unfold fetchSessions
    rw [if_neg hw0]
    refine ⟨length_queryTop _ _ _ _, pairwise_queryTop _ _ _ _, ?_⟩
    intro s hs
    exact of_decide_eq_true (mem_queryTop hs).2
  · refine ⟨length_queryTop _ _ _ _, pairwise_queryTop _ _ _ _, ?_⟩
    intro r hr
    have h2 := (mem_queryTop hr).2
    unfold animalPred at h2
    exact of_decide_eq_true ((Bool.and_eq_true _ _).mp h2).2

/-- C2 witness: the amended theorem evaluated at watermark 1 on a
one-session table. -/
theorem C2_batch_bound_witness :
    0 < 1 ∧
      (fetchSessions [demoSession] 0 0 1).length =
        min (([demoSession].filter (fun s => decide (1 < s.OID))).length) batchLimit :=
  ⟨by decide, ((C2_batch_bound [] [demoSession] 1 0 0 (by decide)).1).1⟩

/-- C3 counterexample: with session batch OIDs 10 and 30 and a voluntary
row with OID 20, the voluntary query (a BETWEEN range on the batch bounds)
returns the row although 20 is not among the OIDs of the session batch. -/
theorem C3_range_query_counterexample : ¬ dependentByMembershipClaim := by
  intro h
  have h2 := (h "farm-demo" gapStore 1 0 0 0 0 0).2 { OID := 20 } (by decide)
  exact absurd h2 (by decide)

/-- C3 (amended): in a fault-free cycle the history-animals batch consists
of exactly the HistoryAnimal rows whose ReferenceID is among the OIDs of
the just-extracted basic-animal batch, and an empty parent batch yields an
empty dependent batch for both dependent streams; the voluntary-sessions
batch, however, consists of exactly the VoluntarySessionMilkYield rows
whose OID lies between the minimum and the maximum OID of the
just-extracted session batch (inclusive), not of those whose OID is a
member of the batch OID set. -/
theorem C3_dependent_extraction (farmId : String) (store : LocalStore)
    (wS wA wL wD y fb : Nat) :
    (∀ hrec : DelproHistoryAnimal,
        hrec ∈ (FetchBatchData farmId store noFaults wS wA wL wD y fb).history_animals ↔
          hrec ∈ store.historyAnimal ∧
            hrec.ReferenceID ∈
              (FetchBatchData farmId store noFaults wS wA wL wD y fb).basic_animals.map
                (fun a => a.OID)) ∧
    ((FetchBatchData farmId store noFaults wS wA wL wD y fb).sessions_milk_yield = [] →
      (FetchBatchData farmId store noFaults wS wA wL wD y fb).voluntary_sessions_milk_yield = []) ∧
    (∀ (s : DelproSessionsMilkYield) (rest : List DelproSessionsMilkYield),
        (FetchBatchData farmId store noFaults wS wA wL wD y fb).sessions_milk_yield = s :: rest →
        ∀ v : DelproVoluntarySessionsMilkYield,
          v ∈ (FetchBatchData farmId store noFaults wS wA wL wD y fb).voluntary_sessions_milk_yield ↔
            v ∈ store.voluntarySessionMilkYield ∧
              oidsMin s rest ≤ v.OID ∧ v.OID ≤ oidsMax s rest) := by
  refine ⟨?_, ?_, ?_⟩
  · intro hrec
    exact mem_fetchHistoryAnimals store.historyAnimal
      (fetchAnimals store.basicAnimal y wA) hrec
  · intro hs
    have h0 : fetchSessions store.sessionMilkYield y fb wS = [] := hs
    calc (FetchBatchData farmId store noFaults wS wA wL wD y fb).voluntary_sessions_milk_yield
        = fetchVoluntary store.voluntarySessionMilkYield
            (fetchSessions store.sessionMilkYield y fb wS) := rfl
      _ = fetchVoluntary store.voluntarySessionMilkYield [] := by rw [h0]
      _ = [] := rfl
  · intro s rest hs v
    have h0 : fetchSessions store.sessionMilkYield y fb wS = s :: rest := hs
    have h1 : (FetchBatchData farmId store noFaults wS wA wL wD y fb).voluntary_sessions_milk_yield
        = fetchVoluntary store.voluntarySessionMilkYield (s :: rest) := by
      calc (FetchBatchData farmId store noFaults wS wA wL wD y fb).voluntary_sessions_milk_yield
          = fetchVoluntary store.voluntarySessionMilkYield
              (fetchSessions store.sessionMilkYield y fb wS) := rfl
        _ = fetchVoluntary store.voluntarySessionMilkYield (s :: rest) := by rw [h0]
    rw [h1]
    exact mem_fetchVoluntary store.voluntarySessionMilkYield s rest v

/-- C3 witness: the range characterization evaluated on the gap store,
where the voluntary row with OID 20 is in the batch because it lies between
the session batch bounds 10 and 30. -/
theorem C3_dependent_extraction_witness :
    ({ OID := 20 } : DelproVoluntarySessionsMilkYield) ∈
        (FetchBatchData "farm-demo" gapStore noFaults 1 0 0 0 0 0).voluntary_sessions_milk_yield ↔
      ({ OID := 20 } : DelproVoluntarySessionsMilkYield) ∈ gapStore.voluntarySessionMilkYield ∧
        oidsMin { OID := 10, BeginTime := 0 } [{ OID := 30, BeginTime := 0 }] ≤ 20 ∧
        20 ≤ oidsMax { OID := 10, BeginTime := 0 } [{ OID := 30, BeginTime := 0 }] :=
  (C3_dependent_extraction "farm-demo" gapStore 1 0 0 0 0 0).2.2
    { OID := 10, BeginTime := 0 } [{ OID := 30, BeginTime := 0 }] (by decide) { OID := 20 }

theorem noNewData_false_of (p : IngestPayload)
    (h : p.basic_animals ≠ [] ∨ p.sessions_milk_yield ≠ [] ∨
      p.lactations_summary ≠ [] ∨ p.history_milk_diversion_info ≠ []) :
    noNewData p = false := by
  rw [noNewData]
  rcases h with h | h | h | h <;> simp [isEmpty_false_of_ne h]

/-- C4: a cycle whose extraction is empty on every stream issues no POST to
the ingest endpoint at all, and a cycle with at least one non-empty stream
batch issues exactly one POST carrying the entire payload, every stream
included. -/
theorem C4_single_or_no_upload :
    ∀ (p : IngestPayload) (o : UploadOutcome) (farmId : String) (store : LocalStore)
      (faults : ReadFaults) (wS wA wL wD y fb : Nat),
      p = FetchBatchData farmId store faults wS wA wL wD y fb →
      ((p.basic_animals = [] ∧ p.lactations_summary = [] ∧ p.sessions_milk_yield = [] ∧
          p.voluntary_sessions_milk_yield = [] ∧ p.history_milk_diversion_info = [] ∧
          p.history_animals = []) →
        (UploadData p o).requests = []) ∧
      (¬(p.basic_animals = [] ∧ p.lactations_summary = [] ∧ p.sessions_milk_yield = [] ∧
          p.voluntary_sessions_milk_yield = [] ∧ p.history_milk_diversion_info = [] ∧
          p.history_animals = []) →
        (UploadData p o).requests = [p]) := by
  intro p o farmId store faults wS wA wL wD y fb hp
  subst hp
  constructor
  · rintro ⟨h1, h2, h3, h4, h5, h6⟩
    have hnn : noNewData (FetchBatchData farmId store faults wS wA wL wD y fb) = true := by
      rw [noNewData, h1, h2, h3, h5]
      rfl
    rw [UploadData, if_pos hnn]
  · intro hne
    have hnn : noNewData (FetchBatchData farmId store faults wS wA wL wD y fb) = false := by
      cases hx : noNewData (FetchBatchData farmId store faults wS wA wL wD y fb) with
      | false => rfl
      | true =>
        have hx2 := hx
        rw [noNewData] at hx2
        simp only [Bool.and_eq_true] at hx2
        obtain ⟨⟨⟨hb, hs⟩, hl⟩, hd⟩ := hx2
        have hb2 := eq_nil_of_isEmpty hb
        have hs2 := eq_nil_of_isEmpty hs
        have hl2 := eq_nil_of_isEmpty hl
        have hd2 := eq_nil_of_isEmpty hd
        have hv2 : (FetchBatchData farmId store faults wS wA wL wD y fb).voluntary_sessions_milk_yield = [] := by
          by_contra hvne
          exact voluntary_sub farmId store faults wS wA wL wD y fb hvne hs2
        have hh2 : (FetchBatchData farmId store faults wS wA wL wD y fb).history_animals = [] := by
          by_contra hhne
          exact history_sub farmId store faults wS wA wL wD y fb hhne hb2
        exact absurd ⟨hb2, hl2, hs2, hv2, hd2, hh2⟩ hne
    rw [UploadData, if_neg (by simp [hnn])]

/-- C4 witness: a store with one fresh animal row yields a non-empty
payload and exactly one POST of it. -/
theorem C4_single_or_no_upload_witness :
    (UploadData (FetchBatchData "farm-demo" demoStore noFaults 1 0 0 0 0 0)
        UploadOutcome.success).requests =
      [FetchBatchData "farm-demo" demoStore noFaults 1 0 0 0 0 0] :=
  (C4_single_or_no_upload (FetchBatchData "farm-demo" demoStore noFaults 1 0 0 0 0 0)
      UploadOutcome.success "farm-demo" demoStore noFaults 1 0 0 0 0 0 rfl).2
    (by decide)

/-- C5: when the watermark fetch fails, GetSyncStatus returns the zero
watermark — all four identifiers 0 — instead of propagating the exception,
and the cycle proceeds to extract with watermark 0 for every stream. -/
theorem C5_fail_open_watermark :
    GetSyncStatus none =
      { last_oid := 0, last_animal_oid := 0, last_lactation_oid := 0,
        last_history_milk_diversion_oid := 0 } ∧
    ∀ (farmId : String) (cfg : Option AgentConfig) (store : LocalStore)
      (faults : ReadFaults) (o : UploadOutcome) (y fb : Nat),
      (runCycle farmId cfg
          { store := store, faults := faults, syncStatusResult := none,
            uploadOutcome := o, oneYearAgo := y, fallbackDate := fb }).payload =
        FetchBatchData farmId store faults 0 0 0 0 y fb :=
  ⟨rfl, fun _ _ _ _ _ _ _ => rfl⟩

/-- C5 witness: the fail-open cycle evaluated on the demo store. -/
theorem C5_fail_open_watermark_witness :
    (runCycle "farm-demo" none
        { store := demoStore, faults := noFaults, syncStatusResult := none,
          uploadOutcome := UploadOutcome.success, oneYearAgo := 0,
          fallbackDate := 0 }).payload =
      FetchBatchData "farm-demo" demoStore noFaults 0 0 0 0 0 0 :=
  C5_fail_open_watermark.2 "farm-demo" none demoStore noFaults UploadOutcome.success 0 0

/-- C7: the scheduling loop performs one wait per tick until cancellation
ends the trace — no cycle error terminates it early — and the wait is 60
seconds when an exception escaped the cycle into the top-level catch,
otherwise the configured polling interval. -/
theorem C7_cycle_error_containment :
    ∀ ticks : List TickEnv,
      (ExecuteLoopWaits ticks).length = ticks.length ∧
      List.Forall₂
        (fun t w => w = if t.cycleThrows then 60 else pollingIntervalOf t.configFile)
        ticks (ExecuteLoopWaits ticks) := by
  intro ticks
  induction ticks with
  | nil => exact ⟨rfl, List.Forall₂.nil⟩
  | cons t rest ih =>
      exact ⟨by simp [ExecuteLoopWaits, ih.1], List.Forall₂.cons rfl ih.2⟩

/-- C7 witness: a two-tick trace, one erroring tick then one clean tick,
produces exactly two waits. -/
theorem C7_cycle_error_containment_witness :
    (ExecuteLoopWaits
        [{ cycleThrows := true, configFile := none },
         { cycleThrows := false, configFile := none }]).length = 2 :=
  (C7_cycle_error_containment
      [{ cycleThrows := true, configFile := none },
       { cycleThrows := false, configFile := none }]).1

/-- C8 counterexample: the sessions read over the gap store fails after one
row was added; the sessions batch is the partial list holding the row with
OID 10, not the empty batch the claim asserts — the source lists are
declared before the try blocks and the catch only logs, so rows added
before a mid-read exception remain. -/
theorem C8_partial_batch_counterexample : ¬ streamFailureEmptyClaim := by
  intro h
  have h2 := h "farm-demo" gapStore 1 0 0 0 0 0 1
  exact absurd h2 (by decide)

/-- C8 (amended): a failure reading any single stream yields a truncated
batch for that stream only — exactly the rows its reader loop had added
before the exception, a prefix of the full query result, possibly but not
necessarily empty — and does not abort extraction of the remaining streams:
an animals-read failure additionally skips the nested history query, and
the voluntary query runs on the truncated sessions batch; and if the local
store connection itself cannot be opened, FetchBatchData still returns a
payload in which every stream's batch is empty, so the cycle proceeds and
trivially skips the upload. -/
theorem C8_truncated_batch_isolation :
    ∀ (farmId : String) (store : LocalStore) (wS wA wL wD y fb : Nat)
      (o : UploadOutcome) (fa fh fl fs fv fd : Option Nat) (k : Nat),
      (FetchBatchData farmId store
          { connFail := true, animalsFault := fa, historyFault := fh,
            lactationsFault := fl, sessionsFault := fs, voluntaryFault := fv,
            diversionsFault := fd }
          wS wA wL wD y fb = emptyPayload farmId ∧
        (UploadData (FetchBatchData farmId store
            { connFail := true, animalsFault := fa, historyFault := fh,
              lactationsFault := fl, sessionsFault := fs, voluntaryFault := fv,
              diversionsFault := fd }
            wS wA wL wD y fb) o).requests = []) ∧
      FetchBatchData farmId store { noFaults with animalsFault := some k }
          wS wA wL wD y fb =
        { FetchBatchData farmId store noFaults wS wA wL wD y fb with
            basic_animals :=
              (FetchBatchData farmId store noFaults wS wA wL wD y fb).basic_animals.take k,
            history_animals := [] } ∧
      FetchBatchData farmId store { noFaults with historyFault := some k }
          wS wA wL wD y fb =
        { FetchBatchData farmId store noFaults wS wA wL wD y fb with
            history_animals :=
              (FetchBatchData farmId store noFaults wS wA wL wD y fb).history_animals.take k } ∧
      FetchBatchData farmId store { noFaults with lactationsFault := some k }
          wS wA wL wD y fb =
        { FetchBatchData farmId store noFaults wS wA wL wD y fb with
            lactations_summary :=
              (FetchBatchData farmId store noFaults wS wA wL wD y fb).lactations_summary.take k } ∧
      FetchBatchData farmId store { noFaults with sessionsFault := some k }
          wS wA wL wD y fb =
        { FetchBatchData farmId store noFaults wS wA wL wD y fb with
            sessions_milk_yield :=
              (FetchBatchData farmId store noFaults wS wA wL wD y fb).sessions_milk_yield.take k,
            voluntary_sessions_milk_yield :=
              fetchVoluntary store.voluntarySessionMilkYield
                ((FetchBatchData farmId store noFaults wS wA wL wD y fb).sessions_milk_yield.take k) } ∧
      FetchBatchData farmId store { noFaults with voluntaryFault := some k }
          wS wA wL wD y fb =
        { FetchBatchData farmId store noFaults wS wA wL wD y fb with
            voluntary_sessions_milk_yield :=
              (FetchBatchData farmId store noFaults wS wA wL wD y fb).voluntary_sessions_milk_yield.take k } ∧
      FetchBatchData farmId store { noFaults with diversionsFault := some k }
          wS wA wL wD y fb =
        { FetchBatchData farmId store noFaults wS wA wL wD y fb with
            history_milk_diversion_info :=
              (FetchBatchData farmId store noFaults wS wA wL wD y fb).history_milk_diversion_info.take k } :=
  fun _ _ _ _ _ _ _ _ _ _ _ _ _ _ _ _ => ⟨⟨rfl, rfl⟩, rfl, rfl, rfl, rfl, rfl, rfl⟩

/-- C10: every payload produced by extraction satisfies the dependency
invariant — non-empty voluntary sessions force non-empty sessions, and
non-empty history animals force non-empty basic animals — so the upload
short-circuit, which inspects only four of the six lists, never skips a
payload containing any record. -/
theorem C10_dependency_invariant :
    ∀ (p : IngestPayload) (o : UploadOutcome) (farmId : String) (store : LocalStore)
      (faults : ReadFaults) (wS wA wL wD y fb : Nat),
      p = FetchBatchData farmId store faults wS wA wL wD y fb →
      ((p.voluntary_sessions_milk_yield ≠ [] → p.sessions_milk_yield ≠ []) ∧
       (p.history_animals ≠ [] → p.basic_animals ≠ []) ∧
       ((p.basic_animals ≠ [] ∨ p.lactations_summary ≠ [] ∨
          p.sessions_milk_yield ≠ [] ∨ p.voluntary_sessions_milk_yield ≠ [] ∨
          p.history_milk_diversion_info ≠ [] ∨ p.history_animals ≠ []) →
        (UploadData p o).requests = [p])) := by
  intro p o farmId store faults wS wA wL wD y fb hp
  subst hp
  refine ⟨voluntary_sub farmId store faults wS wA wL wD y fb,
    history_sub farmId store faults wS wA wL wD y fb, ?_⟩
  intro hne
  have hnn : noNewData (FetchBatchData farmId store faults wS wA wL wD y fb) = false := by
    apply noNewData_false_of
    rcases hne with h | h | h | h | h | h
    · exact Or.inl h
    · exact Or.inr (Or.inr (Or.inl h))
    · exact Or.inr (Or.inl h)
    · exact Or.inr (Or.inl (voluntary_sub farmId store faults wS wA wL wD y fb h))
    · exact Or.inr (Or.inr (Or.inr h))
    · exact Or.inl (history_sub farmId store faults wS wA wL wD y fb h)
  rw [UploadData, if_neg (by simp [hnn])]

/-- C10 witness: on the gap store the voluntary list is non-empty, the
sessions list is therefore non-empty, and the payload is POSTed once. -/
theorem C10_dependency_invariant_witness :
    (FetchBatchData "farm-demo" gapStore noFaults 1 0 0 0 0 0).sessions_milk_yield ≠ [] :=
  (C10_dependency_invariant (FetchBatchData "farm-demo" gapStore noFaults 1 0 0 0 0 0)
      UploadOutcome.success "farm-demo" gapStore noFaults 1 0 0 0 0 0 rfl).1
    (by decide)

/-- A terminate outcome never changes the config file. -/
theorem resolveFarmId_terminate_config (e : StartupEnv) (c : Option AgentConfig)
    (h : resolveFarmId e = StartupResult.terminate c) : c = e.configFile := by
  unfold resolveFarmId at h
  repeat' split at h
  all_goals
    first
      | (injection h with h2; exact h2.symm)
      | exact StartupResult.noConfusion h

/-- An enterLoop outcome either keeps the config file (env or config
resolution) or comes from a successful interactive registration, which
persists the returned id. -/
theorem resolveFarmId_enterLoop_cases (e : StartupEnv) (fid : String)
    (cfg2 : Option AgentConfig)
    (h : resolveFarmId e = StartupResult.enterLoop fid cfg2) :
    cfg2 = e.configFile ∨
      (e.interactive = true ∧ e.registrationResult = some fid ∧ fid ≠ "" ∧
        cfg2 = some (SaveFarmIdToConfig fid)) := by
  unfold resolveFarmId at h
  repeat' split at h
  all_goals
    first
      | exact StartupResult.noConfusion h
      | (injection h with hA hB; exact Or.inl hB.symm)
      | (injection h with hA hB
         subst hA
         exact Or.inr ⟨‹_›, ‹_›, ‹_›, hB.symm⟩)

/-- C6: FARM_ID resolution order and the unique terminating startup path.
Part 1: a usable environment value (non-empty and not the UNKNOWN_FARM
placeholder) wins and the config file is left alone.  Part 2: otherwise a
non-empty FarmId from the persisted config file wins.  Part 3: a
terminating startup never changes the config file.  Part 4: startup
returns before the scheduling loop exactly when env and config yield
nothing and the interactive registration path also yields nothing — in
particular a missing interactive surface alone forces the return, so
registration is only ever reached interactively.  Part 5: whenever startup
enters the loop having changed the persisted state, the id came from the
interactive registration. -/
theorem C6_farm_id_resolution : ∀ e : StartupEnv,
    (∀ s : String, e.envFarmId = some s → s ≠ "" → s ≠ "UNKNOWN_FARM" →
      resolveFarmId e = StartupResult.enterLoop s e.configFile) ∧
    ((e.envFarmId = none ∨ e.envFarmId = some "" ∨ e.envFarmId = some "UNKNOWN_FARM") →
      ∀ f : String, e.configFile.bind (fun c => c.FarmId) = some f → f ≠ "" →
        resolveFarmId e = StartupResult.enterLoop f e.configFile) ∧
    (∀ c : Option AgentConfig,
      resolveFarmId e = StartupResult.terminate c → c = e.configFile) ∧
    (isTerminate (resolveFarmId e) = true ↔
      ((resolvedFromEnvOrConfig e = none ∨ resolvedFromEnvOrConfig e = some "") ∧
        (e.interactive = false ∨ e.enteredName = none ∨
          (∃ n : String, e.enteredName = some n ∧ n.trim = "") ∨
          e.registrationResult = none ∨ e.registrationResult = some ""))) ∧
    (∀ (fid : String) (cfg2 : Option AgentConfig),
      resolveFarmId e = StartupResult.enterLoop fid cfg2 → cfg2 ≠ e.configFile →
        e.interactive = true ∧ e.registrationResult = some fid) := by
  intro e
  refine ⟨?_, ?_, ?_, ?_, ?_⟩
  · intro s hs hne hnu
    have hres : resolvedFromEnvOrConfig e = some s := by
      unfold resolvedFromEnvOrConfig
      rw [hs, if_neg (by simp [hne, hnu])]
    unfold resolveFarmId
    rw [hres, if_neg (by simp [hne])]
    rfl
  · intro henv f hf hfne
    have hres : resolvedFromEnvOrConfig e = some f := by
      unfold resolvedFromEnvOrConfig
      rw [if_pos henv]
      exact hf
    unfold resolveFarmId
    rw [hres, if_neg (by simp [hfne])]
    rfl
  · exact resolveFarmId_terminate_config e
  · constructor
    · intro h4
      by_cases hcond : resolvedFromEnvOrConfig e = none ∨ resolvedFromEnvOrConfig e = some ""
      · refine ⟨hcond, ?_⟩
        cases hi : e.interactive with
        | false => exact Or.inl rfl
        | true =>
          cases hn : e.enteredName with
          | none => exact Or.inr (Or.inl rfl)
          | some name =>
            by_cases ht : name.trim = ""
            · exact Or.inr (Or.inr (Or.inl ⟨name, rfl, ht⟩))
            · cases hr : e.registrationResult with
              | none => exact Or.inr (Or.inr (Or.inr (Or.inl rfl)))
              | some fid =>
                by_cases hf : fid = ""
                · exact Or.inr (Or.inr (Or.inr (Or.inr (by rw [hf]))))
                · exfalso
                  unfold resolveFarmId at h4
                  rw [if_pos hcond] at h4
                  simp [hi, hn, ht, hr, hf, isTerminate] at h4
      · exfalso
        unfold resolveFarmId at h4
        rw [if_neg hcond] at h4
        exact Bool.noConfusion h4
    · rintro ⟨hcond, hrest⟩
      unfold resolveFarmId
      rw [if_pos hcond]
      cases hi : e.interactive with
      | false =>
          rw [if_neg (by decide)]
          rfl
      | true =>
          rw [if_pos rfl]
          cases hn : e.enteredName with
          | none => rfl
          | some name =>
              by_cases ht : name.trim = ""
              · simp [ht, isTerminate]
              · rcases hrest with h5 | h5 | ⟨n2, hn2, hnt2⟩ | h5 | h5
                · rw [hi] at h5
                  exact Bool.noConfusion h5
                · rw [hn] at h5
                  exact Option.noConfusion h5
                · rw [hn] at hn2
                  injection hn2 with he
                  exact absurd (he ▸ hnt2) ht
                · simp [ht, h5, isTerminate]
                · simp [ht, h5, isTerminate]
  · intro fid cfg2 h hne
    rcases resolveFarmId_enterLoop_cases e fid cfg2 h with h1 | ⟨hi, hr, _, _⟩
    · exact absurd h1 hne
    · exact ⟨hi, hr⟩

/-- C6 witness: a usable environment value makes startup enter the loop
with it, leaving the config file alone. -/
theorem C6_farm_id_resolution_witness :
    resolveFarmId
        { envFarmId := some "farm-a", configFile := none, interactive := false,
          enteredName := none, registrationResult := none } =
      StartupResult.enterLoop "farm-a" none :=
  (C6_farm_id_resolution
      { envFarmId := some "farm-a", configFile := none, interactive := false,
        enteredName := none, registrationResult := none }).1
    "farm-a" rfl (by decide) (by decide)

/-- C9: a failed upload mutates no local state — the cycle returns the
config file untouched and the upload outcome has no influence on which
rows the cycle selected, so a re-run against an unchanged store and
watermark selects the same candidate rows — and the persisted config file
is only ever written by the interactive registration flow. -/
theorem C9_no_local_state_mutation :
    (∀ (farmId : String) (cfg : Option AgentConfig) (env : CycleEnv),
      (runCycle farmId cfg env).configAfter = cfg) ∧
    (∀ (farmId : String) (cfg : Option AgentConfig) (store : LocalStore)
        (faults : ReadFaults) (st : Option SyncStatusResponse) (y fb : Nat)
        (o o2 : UploadOutcome),
      (runCycle farmId cfg
          { store := store, faults := faults, syncStatusResult := st,
            uploadOutcome := o, oneYearAgo := y, fallbackDate := fb }).payload =
        (runCycle farmId cfg
          { store := store, faults := faults, syncStatusResult := st,
            uploadOutcome := o2, oneYearAgo := y, fallbackDate := fb }).payload) ∧
    (∀ (e : StartupEnv) (fid : String) (cfg2 : Option AgentConfig),
      resolveFarmId e = StartupResult.enterLoop fid cfg2 → cfg2 ≠ e.configFile →
        e.interactive = true ∧ e.registrationResult = some fid ∧
          cfg2 = some (SaveFarmIdToConfig fid)) := by
  refine ⟨fun _ _ _ => rfl, fun _ _ _ _ _ _ _ _ _ => rfl, ?_⟩
  intro e fid cfg2 h hne
  rcases resolveFarmId_enterLoop_cases e fid cfg2 h with h1 | ⟨hi, hr, _, hc⟩
  · exact absurd h1 hne
  · exact ⟨hi, hr, hc⟩

/-- C9 witness: a cycle with a failing upload leaves the config file as it
was. -/
theorem C9_no_local_state_mutation_witness :
    (runCycle "farm-demo" none
        { store := demoStore, faults := noFaults, syncStatusResult := none,
          uploadOutcome := UploadOutcome.httpError, oneYearAgo := 0,
          fallbackDate := 0 }).configAfter = none :=
  C9_no_local_state_mutation.1 "farm-demo" none
    { store := demoStore, faults := noFaults, syncStatusResult := none,
      uploadOutcome := UploadOutcome.httpError, oneYearAgo := 0, fallbackDate := 0 }

end PecusAgent
